import Mathlib

/-!
Verification of the JRXML template compiler (`muban_cli/compiler.py`).

The development shallowly embeds the compiler: the regular-expression scans of
`JRXMLCompiler._extract_asset_references` are implemented as explicit matchers
over `List Char`, the filesystem is an explicit structure (`FS`), and
`JRXMLCompiler.compile` / `_create_zip` / `analyze` are pure functions from a
filesystem snapshot (plus an I/O-failure environment for the archive step) to a
`CompilationResult` and the filesystem afterwards.

Modelling conventions:
* Paths are plain strings.  `Path.resolve()` normalisation (`..`, symlinks) is
  not modelled; joining `base / rel` is string concatenation with `/`, except
  that a trailing `/` is dropped, as `pathlib` does.
* Python `re` semantics are reproduced for the four patterns the source uses
  (leftmost non-overlapping matches, greedy character classes, the lazy groups
  of the CDATA pattern, and the backtracking behaviour of `([^"]+/)"`).
* Text is ASCII in all inputs of interest; `\w` is modelled as alphanumeric or
  underscore and `lower()` as ASCII lowering.
-/

namespace Muban

/-- Python `\w` on ASCII text: letters, digits, underscore. -/
def isWordChar (c : Char) : Bool := c.isAlphanum || c == '_'

/-- Python `\s`: space, tab, newline, carriage return, form feed, vertical tab. -/
def isPySpace (c : Char) : Bool :=
  c == ' ' || c == '\t' || c == '\n' || c == '\r' || c == '\x0c' || c == '\x0b'

/-- Split off the maximal run of characters satisfying `p` (a greedy character
class in a regex). -/
def spanChars (p : Char → Bool) (cs : List Char) : List Char × List Char :=
  (cs.takeWhile p, cs.dropWhile p)

/-- Consume the literal `l` from the front of `cs`, or fail. -/
def dropLit : List Char → List Char → Option (List Char)
  | [], cs => some cs
  | _, [] => none
  | l :: ls, c :: cs => if c == l then dropLit ls cs else none

/-- Match `ASSET_PATTERN` = `\$P\{(\w+)\}\s*\+\s*"([^"]+)"` at the head of the
input.  Returns the two groups (parameter name, literal path) and the rest of
the input after the match. -/
def matchAssetAt (cs : List Char) : Option ((String × String) × List Char) := do
  let cs ← dropLit (String.toList "$P\x7b") cs
  let (w, cs) := spanChars isWordChar cs
  guard (w ≠ [])
  let cs ← dropLit ['\x7d'] cs
  let cs := cs.dropWhile isPySpace
  let cs ← dropLit ['+'] cs
  let cs := cs.dropWhile isPySpace
  let cs ← dropLit ['"'] cs
  let (lit, cs) := spanChars (fun c => c != '"') cs
  guard (lit ≠ [])
  let cs ← dropLit ['"'] cs
  return ((String.mk w, String.mk lit), cs)

/-- Match `DYNAMIC_DIR_PATTERN` =
`\$P\{(\w+)\}\s*\+\s*"([^"]+/)"\s*\+\s*\$([PFV])\{([^}]+)\}` at the head.
Groups: parameter name, directory literal, `P`/`F`/`V`, dynamic name.
The backtracking of `([^"]+/)"` makes the group succeed exactly when the whole
quoted run has length at least two and ends in `/`, capturing the entire run. -/
def matchDynDirAt (cs : List Char) :
    Option ((String × String × Char × String) × List Char) := do
  let cs ← dropLit (String.toList "$P\x7b") cs
  let (w, cs) := spanChars isWordChar cs
  guard (w ≠ [])
  let cs ← dropLit ['\x7d'] cs
  let cs := cs.dropWhile isPySpace
  let cs ← dropLit ['+'] cs
  let cs := cs.dropWhile isPySpace
  let cs ← dropLit ['"'] cs
  let (lit, cs) := spanChars (fun c => c != '"') cs
  guard (lit.length ≥ 2 ∧ lit.getLast? = some '/')
  let cs ← dropLit ['"'] cs
  let cs := cs.dropWhile isPySpace
  let cs ← dropLit ['+'] cs
  let cs := cs.dropWhile isPySpace
  let cs ← dropLit ['$'] cs
  match cs with
  | [] => none
  | k :: cs => do
    guard (k == 'P' || k == 'F' || k == 'V')
    let cs ← dropLit ['\x7b'] cs
    let (dn, cs) := spanChars (fun c => c != '\x7d') cs
    guard (dn ≠ [])
    let cs ← dropLit ['\x7d'] cs
    return ((String.mk w, String.mk lit, k, String.mk dn), cs)

/-- The tail `]]>\s*</expression>` of `IMAGE_EXPRESSION_PATTERN`. -/
def cdataEnd (cs : List Char) : Option (List Char) := do
  let cs ← dropLit (String.toList "]]>") cs
  let cs := cs.dropWhile isPySpace
  dropLit (String.toList "</expression>") cs

/-- The lazy group `(.*?)` before `]]>\s*</expression>`: the shortest capture
whose continuation matches wins. -/
def lazyCdata : List Char → List Char → Option (String × List Char)
  | cs, acc =>
    match cdataEnd cs with
    | some rest => some (String.mk acc.reverse, rest)
    | none =>
      match cs with
      | [] => none
      | c :: cs' => lazyCdata cs' (c :: acc)

/-- Match `<expression>\s*<!\[CDATA\[(.*?)\]\]>\s*</expression>` at the head. -/
def matchExprTailAt (cs : List Char) : Option (String × List Char) := do
  let cs ← dropLit (String.toList "<expression>") cs
  let cs := cs.dropWhile isPySpace
  let cs ← dropLit (String.toList "<![CDATA[") cs
  lazyCdata cs []

/-- The lazy `.*?` (with `DOTALL`) before the `<expression>` tail: try the tail
at every offset, earliest success wins. -/
def scanExprTail : List Char → Option (String × List Char)
  | [] => none
  | c :: cs =>
    match matchExprTailAt (c :: cs) with
    | some r => some r
    | none => scanExprTail cs

/-- Match `IMAGE_EXPRESSION_PATTERN` at the head.  Returns the CDATA capture. -/
def matchImageExprAt (cs : List Char) : Option (String × List Char) := do
  let cs ← dropLit (String.toList "<element") cs
  let (sp, cs) := spanChars isPySpace cs
  guard (sp ≠ [])
  let cs ← dropLit (String.toList "kind=\"") cs
  let cs ← (dropLit (String.toList "image\"") cs) <|>
           (dropLit (String.toList "subreport\"") cs)
  let (_, cs) := spanChars (fun c => c != '>') cs
  let cs ← dropLit ['>'] cs
  scanExprTail cs

/-- One step of `HAS_LITERAL_STRING` = `"[^"]+"` at the head. -/
def matchLiteralStringAt (cs : List Char) : Option (Unit × List Char) := do
  let cs ← dropLit ['"'] cs
  let (lit, cs) := spanChars (fun c => c != '"') cs
  guard (lit ≠ [])
  let cs ← dropLit ['"'] cs
  return ((), cs)

/-- `HAS_LITERAL_STRING.search`: does `"[^"]+"` match anywhere? -/
def hasLiteralString : List Char → Bool
  | [] => false
  | c :: cs => (matchLiteralStringAt (c :: cs)).isSome || hasLiteralString cs

/-- `re.finditer`: leftmost non-overlapping matches, each tagged with its start
offset.  `fuel` bounds the recursion; every step consumes at least one
character, so `cs.length` fuel suffices. -/
def finditerAux {α : Type} (m : List Char → Option (α × List Char)) :
    Nat → List Char → Nat → List (Nat × α)
  | 0, _, _ => []
  | _, [], _ => []
  | fuel + 1, c :: cs, pos =>
    match m (c :: cs) with
    | some (a, rest) =>
      (pos, a) :: finditerAux m fuel rest (pos + ((c :: cs).length - rest.length))
    | none => finditerAux m fuel cs (pos + 1)

def finditer {α : Type} (m : List Char → Option (α × List Char))
    (cs : List Char) : List (Nat × α) :=
  finditerAux m cs.length cs 0

/-- Python `str.strip()`: drop leading and trailing whitespace. -/
def pyStrip (s : String) : String :=
  String.mk (((s.toList.dropWhile isPySpace).reverse.dropWhile isPySpace).reverse)

/-- 1-based line number of offset `pos`: `content[:pos].count('\n') + 1`. -/
def lineNumberAt (cs : List Char) (pos : Nat) : Nat :=
  ((cs.take pos).filter (fun c => c == '\n')).length + 1

/-! ### Path helpers (`pathlib` operations used by the compiler) -/

/-- Python `Path.name`: the final path component. -/
def pathName (p : String) : String :=
  String.mk ((p.toList.reverse.takeWhile (fun c => c != '/')).reverse)

/-- Python `Path.parent` as a string. -/
def parentDir (p : String) : String :=
  match p.toList.reverse.dropWhile (fun c => c != '/') with
  | [] => "."
  | ['/'] => "/"
  | _ :: rest => String.mk rest.reverse

/-- Python `Path.suffix`: the extension of the final component, `""` when the
last dot is absent, leading, or trailing. -/
def pathSuffix (p : String) : String :=
  let n := (pathName p).toList
  let ext := n.reverse.takeWhile (fun c => c != '.')
  if ext.length == n.length then ""
  else if n.length - ext.length - 1 == 0 || ext.length == 0 then ""
  else String.mk ('.' :: ext.reverse)

/-- Python `Path.with_suffix`: replace (or add) the final component's
extension. -/
def withSuffix (p : String) (suf : String) : String :=
  String.mk (p.toList.take (p.length - (pathSuffix p).length)) ++ suf

/-- Model of `(base / rel).resolve()`: join with `/`; `pathlib` normalises a
trailing slash away.  `..` and symlink resolution are not modelled. -/
def joinPath (base rel : String) : String :=
  let j := base ++ "/" ++ rel
  if j.toList.getLast? = some '/' then String.mk j.toList.dropLast else j

/-! ### Data model (`AssetReference`, `CompilationResult`) -/

/-- `AssetReference` from `compiler.py`. -/
structure AssetReference where
  path : String
  source_file : String
  line_number : Option Nat := none
  asset_type : String := "image"
  is_dynamic_dir : Bool := false
  dynamic_param : Option String := none
deriving Repr, DecidableEq

/-- `CompilationResult` from `compiler.py`.  `output_path`/`main_jrxml` are
`none` until set, list fields default to empty, exactly as the dataclass. -/
structure CompilationResult where
  success : Bool
  output_path : Option String := none
  main_jrxml : Option String := none
  assets_found : List AssetReference := []
  assets_missing : List AssetReference := []
  assets_included : List String := []
  skipped_urls : List String := []
  skipped_dynamic : List String := []
  errors : List String := []
  warnings : List String := []
deriving Repr, DecidableEq

/-! ### `_extract_asset_references` -/

/-- ASCII lower-casing of one character (Python `str.lower` on the ASCII
inputs of interest). -/
def lowerChar (c : Char) : Char :=
  if 65 ≤ c.toNat ∧ c.toNat ≤ 90 then Char.ofNat (c.toNat + 32) else c

/-- Python `str.lower` (ASCII). -/
def strToLower (s : String) : String := String.mk (s.toList.map lowerChar)

/-- Is `ps` a prefix of `cs`? -/
def listStartsWith : List Char → List Char → Bool
  | _, [] => true
  | [], _ :: _ => false
  | c :: cs, p :: ps => c == p && listStartsWith cs ps

/-- Python `str.startswith`. -/
def strStartsWith (s t : String) : Bool := listStartsWith s.toList t.toList

/-- Python `str.endswith`. -/
def strEndsWith (s t : String) : Bool :=
  listStartsWith s.toList.reverse t.toList.reverse

/-- `URL_PREFIXES` from the source. -/
def urlSchemes : List String := ["http://", "https://", "file://", "ftp://"]

/-- `asset_path.lower().startswith(URL_PREFIXES)`. -/
def isRemoteUrl (s : String) : Bool :=
  urlSchemes.any (fun u => strStartsWith (strToLower s) u)

def imageExtensions : List String :=
  [".png", ".jpg", ".jpeg", ".gif", ".svg", ".bmp", ".tiff", ".tif"]

def subreportExtensions : List String := [".jasper", ".jrxml"]

/-- Asset kind from the extension (static pass of the scanner). -/
def assetTypeOf (p : String) : String :=
  let ext := strToLower (pathSuffix p)
  if imageExtensions.contains ext then "image"
  else if subreportExtensions.contains ext then "subreport"
  else "unknown"

/-- The `skipped_dynamic` pass: every image/subreport expression whose stripped
CDATA text contains no literal string, de-duplicated preserving order. -/
def skippedDynamicOf (cs : List Char) : List String :=
  (finditer matchImageExprAt cs).foldl
    (fun acc m =>
      let expr := pyStrip m.2
      if hasLiteralString expr.toList then acc
      else if acc.contains expr then acc
      else acc ++ [expr])
    []

/-- `{"P": "$P", "F": "$F", "V": "$V"}.get(expr_type, "$P")`. -/
def sigilOf (k : Char) : String :=
  if k == 'P' then "$P" else if k == 'F' then "$F" else if k == 'V' then "$V" else "$P"

/-- Accumulator of the dynamic-directory pass: the emitted references together
with the `seen_paths` and `dynamic_dirs` sets (kept as insertion-ordered
lists). -/
structure DynPassOut where
  assets : List AssetReference
  seen : List String
  dynDirs : List String
deriving Repr, DecidableEq

/-- The `AssetReference` built for one dynamic-directory match
`(start offset, parameter, directory literal, P/F/V, dynamic name)`. -/
def dynRefOf (cs : List Char) (srcFile : String)
    (m : Nat × String × String × Char × String) : AssetReference :=
  { path := m.2.2.1
    source_file := srcFile
    line_number := some (lineNumberAt cs m.1)
    asset_type := "directory"
    is_dynamic_dir := true
    dynamic_param := some (sigilOf m.2.2.2.1 ++ "\x7b" ++ m.2.2.2.2 ++ "\x7d") }

/-- One iteration of the dynamic-directory loop. -/
def dynDirStep (cs : List Char) (srcFile : String) (acc : DynPassOut)
    (m : Nat × String × String × Char × String) : DynPassOut :=
  if acc.seen.contains m.2.2.1 then acc
  else
    { assets := acc.assets ++ [dynRefOf cs srcFile m]
      seen := acc.seen ++ [m.2.2.1]
      dynDirs := acc.dynDirs ++ [m.2.2.1] }

/-- The dynamic-directory pass (`DYNAMIC_DIR_PATTERN` loop).  The
`_detected_params` set only feeds a log line and is not modelled. -/
def dynDirPass (cs : List Char) (srcFile : String) : DynPassOut :=
  (finditer matchDynDirAt cs).foldl (dynDirStep cs srcFile) ⟨[], [], []⟩

/-- Accumulator of the static pass: emitted references, the shared
`seen_paths` set, and `result.skipped_urls`. -/
structure StatPassOut where
  assets : List AssetReference
  seen : List String
  skippedUrls : List String
deriving Repr, DecidableEq

/-- The `AssetReference` built for one static-asset match
`(start offset, parameter, literal path)`. -/
def statRefOf (cs : List Char) (srcFile : String)
    (m : Nat × String × String) : AssetReference :=
  { path := m.2.2
    source_file := srcFile
    line_number := some (lineNumberAt cs m.1)
    asset_type := assetTypeOf m.2.2 }

/-- One iteration of the static-asset loop (`ASSET_PATTERN`). -/
def statStep (cs : List Char) (srcFile : String) (dynDirs : List String)
    (acc : StatPassOut) (m : Nat × String × String) : StatPassOut :=
  if isRemoteUrl m.2.2 then
    if acc.skippedUrls.contains m.2.2 then acc
    else { acc with skippedUrls := acc.skippedUrls ++ [m.2.2] }
  else if strEndsWith m.2.2 "/" && dynDirs.contains m.2.2 then acc
  else if acc.seen.contains m.2.2 then acc
  else
    { acc with
      assets := acc.assets ++ [statRefOf cs srcFile m]
      seen := acc.seen ++ [m.2.2] }

/-- The static-asset pass, started from the state the dynamic pass left. -/
def statPass (cs : List Char) (srcFile : String) (dyn : DynPassOut) : StatPassOut :=
  (finditer matchAssetAt cs).foldl (statStep cs srcFile dyn.dynDirs)
    ⟨[], dyn.seen, []⟩

/-- What `_extract_asset_references` produces: the returned asset list plus the
`skipped_urls` / `skipped_dynamic` fields it wrote into the result. -/
structure ExtractOut where
  assets : List AssetReference
  skippedUrls : List String
  skippedDynamic : List String
deriving Repr, DecidableEq

/-- `JRXMLCompiler._extract_asset_references`, as a function of the template
text and the source file path.  The constructor argument `reports_dir_param`
is never consulted: both patterns match any parameter name (`\w+`); detected
names only feed a log line. -/
def extractAssetReferences (content : String) (srcFile : String) : ExtractOut :=
  let cs := content.toList
  let dyn := dynDirPass cs srcFile
  let stat := statPass cs srcFile dyn
  { assets := dyn.assets ++ stat.assets
    skippedUrls := stat.skippedUrls
    skippedDynamic := skippedDynamicOf cs }

/-! ### Filesystem model and the resolution loop of `compile` -/

/-- A filesystem snapshot.  `dirEntries` gives the `iterdir()` order of entry
names in a directory; `readExc p = some e` means `read_text` raises with
message `e`; `text` is the decoded text of a readable file; `bytes` is the
payload `zipfile` stores for a file; `zipData` records the entries of an
archive previously written at a path. -/
structure FS where
  files : List String
  dirs : List String
  dirEntries : String → List String
  readExc : String → Option String
  text : String → String
  bytes : String → String
  zipData : String → Option (List (String × String))

/-- `Path.exists()`: a file or a directory is present. -/
def FS.existsPath (fs : FS) (p : String) : Bool :=
  fs.files.contains p || fs.dirs.contains p

/-- `Path.is_dir()`. -/
def FS.isDir (fs : FS) (p : String) : Bool := fs.dirs.contains p

/-- `Path.is_file()`. -/
def FS.isFile (fs : FS) (p : String) : Bool := fs.files.contains p

/-- `asset.dynamic_param` interpolated into an f-string (`None` when absent,
as Python prints it). -/
def dynParamText : Option String → String
  | some s => s
  | none => "None"

/-- What one iteration of the resolution loop in `compile` contributes:
`assets_to_include` pairs (absolute path, archive path), `assets_included`,
`assets_missing` and warnings, in emission order. -/
structure ResolveOut where
  toInclude : List (String × String)
  included : List String
  missing : List AssetReference
  warnings : List String
deriving Repr, DecidableEq

/-- One iteration of the `for asset in assets` loop of `compile`. -/
def resolveAsset (fs : FS) (baseDir : String) (a : AssetReference) : ResolveOut :=
  let absPath := joinPath baseDir a.path
  if a.is_dynamic_dir then
    if fs.existsPath absPath && fs.isDir absPath then
      let fileNames := (fs.dirEntries absPath).filter
        (fun n => fs.isFile (absPath ++ "/" ++ n))
      { toInclude := fileNames.map (fun n => (absPath ++ "/" ++ n, a.path ++ n))
        included := fileNames.map (fun n => absPath ++ "/" ++ n)
        missing := []
        warnings := ["Dynamic asset: " ++ a.path ++ "* (filename from " ++
          dynParamText a.dynamic_param ++ ") - included all " ++
          toString fileNames.length ++ " files from directory"] }
    else
      { toInclude := [], included := [], missing := [a]
        warnings := ["Directory not found: " ++ a.path ++ " (referenced in " ++
          pathName a.source_file ++ ")"] }
  else if fs.existsPath absPath then
    { toInclude := [(absPath, a.path)], included := [absPath]
      missing := [], warnings := [] }
  else
    { toInclude := [], included := [], missing := [a]
      warnings := ["Asset not found: " ++ a.path ++ " (referenced in " ++
        pathName a.source_file ++ ")"] }

/-- The whole resolution loop, accumulating in iteration order. -/
def resolveAll (fs : FS) (baseDir : String) (assets : List AssetReference) :
    ResolveOut :=
  assets.foldl
    (fun acc a =>
      let r := resolveAsset fs baseDir a
      { toInclude := acc.toInclude ++ r.toInclude
        included := acc.included ++ r.included
        missing := acc.missing ++ r.missing
        warnings := acc.warnings ++ r.warnings })
    ⟨[], [], [], []⟩

/-! ### `_create_zip` and `compile` -/

/-- The I/O environment of the archive step: `openFail` models an exception
before the archive file is created (directory creation or open fails);
`writeFail i` models an exception while writing entry `i`, after the file was
created — the `with` block then finalises what was written so far. -/
inductive ZipFailure where
  | openFail (msg : String)
  | writeFail (i : Nat) (msg : String)
deriving Repr, DecidableEq

/-- The filesystem after the archive at `out` holds exactly `entries`:
the output file exists, its parent directory exists (`mkdir(parents=True,
exist_ok=True)`), and `zipData out` records the entries. -/
def updateZip (fs : FS) (out : String) (entries : List (String × String)) : FS :=
  { fs with
    files := if fs.files.contains out then fs.files else fs.files ++ [out]
    dirs := if fs.dirs.contains (parentDir out) then fs.dirs
            else fs.dirs ++ [parentDir out]
    zipData := fun q => if q = out then some entries else fs.zipData q }

/-- `JRXMLCompiler._create_zip`.  Entry list: the main template at its own
file name, then every asset at its archive-relative path.  Returns the raised
exception's message (if any) and the filesystem afterwards: on a write failure
the partially-written archive remains at the output path. -/
def createZip (fs : FS) (jrxmlPath : String) (assets : List (String × String))
    (outputPath : String) (zfail : Option ZipFailure) : Option String × FS :=
  let entries := (pathName jrxmlPath, fs.bytes jrxmlPath) ::
    assets.map (fun e => (e.2, fs.bytes e.1))
  match zfail with
  | some (.openFail msg) => (some msg, fs)
  | some (.writeFail i msg) => (some msg, updateZip fs outputPath (entries.take i))
  | none => (none, updateZip fs outputPath entries)

/-- `JRXMLCompiler.compile`.  `reportsDirParam` mirrors the constructor
argument (the extraction patterns do not consult it); `zfail` is the I/O
environment of the archive step.  The input path is assumed already in
resolved form (`Path(...).resolve()` is not modelled).  Returns the result
and the filesystem after the run. -/
def compile (fs : FS) (jrxmlPath : String) (outputPathArg : Option String)
    (dryRun : Bool) (reportsDirParam : String) (zfail : Option ZipFailure) :
    CompilationResult × FS :=
  if !fs.existsPath jrxmlPath then
    ({ success := false, errors := ["JRXML file not found: " ++ jrxmlPath] }, fs)
  else
    let warnings0 := if strToLower (pathSuffix jrxmlPath) != ".jrxml" then
      ["File does not have .jrxml extension: " ++ jrxmlPath] else []
    let baseDir := parentDir jrxmlPath
    let outputPath := match outputPathArg with
      | none => withSuffix jrxmlPath ".zip"
      | some o => o
    match fs.readExc jrxmlPath with
    | some e =>
      ({ success := false, main_jrxml := some jrxmlPath
         output_path := some outputPath, warnings := warnings0
         errors := ["Failed to parse JRXML: " ++ e] }, fs)
    | none =>
      let ext := extractAssetReferences (fs.text jrxmlPath) jrxmlPath
      let res := resolveAll fs baseDir ext.assets
      let base : CompilationResult := {
        success := false
        main_jrxml := some jrxmlPath
        output_path := some outputPath
        assets_found := ext.assets
        assets_missing := res.missing
        assets_included := res.included
        skipped_urls := ext.skippedUrls
        skipped_dynamic := ext.skippedDynamic
        errors := []
        warnings := warnings0 ++ res.warnings }
      if dryRun then ({ base with success := true }, fs)
      else
        match createZip fs jrxmlPath res.toInclude outputPath zfail with
        | (some e, fs') => ({ base with errors := ["Failed to create ZIP: " ++ e] }, fs')
        | (none, fs') => ({ base with success := true }, fs')

/-- `JRXMLCompiler.analyze`: `compile` with the default output path and
`dry_run=True`.  A dry run never reaches the archive step, so the I/O
environment is irrelevant; `none` is passed. -/
def analyze (fs : FS) (jrxmlPath : String) (reportsDirParam : String) :
    CompilationResult × FS :=
  compile fs jrxmlPath none true reportsDirParam none

/-! ### Uncaught exception paths of `compile`

Two statements of `compile` sit outside every `try` block and can raise past
the function's boundary:

* `jrxml_path.with_suffix('.zip')` (reached only when no output path is
  given) raises `ValueError` when the source path's final component is empty
  — for a resolved path that is exactly the root `/`;
* `list(asset_abs_path.iterdir())`, run inside the resolution loop for every
  dynamic-directory reference whose resolved path is an existing directory,
  can raise (e.g. `PermissionError` on an unlistable directory).

`compileExc` makes these paths explicit: it checks the raise conditions in
the source's statement order and otherwise delegates to `compile`, whose
result does not depend on the checks.  `iterdirExc q = some e` models
`iterdir()` raising with message `e` at directory `q`.  Exception-message
formatting (Python's `repr` of the path) is abstracted to plain text. -/

/-- The message of the first `iterdir()` exception hit by the resolution
loop, if any: assets are visited in order, and the listing runs only for a
dynamic-directory reference whose resolved path is an existing directory. -/
def firstIterdirExc (fs : FS) (iterdirExc : String → Option String)
    (baseDir : String) : List AssetReference → Option String
  | [] => none
  | a :: rest =>
    if a.is_dynamic_dir then
      if fs.existsPath (joinPath baseDir a.path) &&
          fs.isDir (joinPath baseDir a.path) then
        match iterdirExc (joinPath baseDir a.path) with
        | some e => some e
        | none => firstIterdirExc fs iterdirExc baseDir rest
      else firstIterdirExc fs iterdirExc baseDir rest
    else firstIterdirExc fs iterdirExc baseDir rest

/-- `JRXMLCompiler.compile` with its uncaught exception paths explicit:
`.error msg` when the Python function raises past its boundary, `.ok` with
`compile`'s result otherwise.  The raise conditions are checked in source
order: the `with_suffix` call comes after the existence check and before the
guarded parse; the directory listings run after extraction (whether or not
`dry_run` is set) and before the archive step. -/
def compileExc (fs : FS) (jrxmlPath : String) (outputPathArg : Option String)
    (dryRun : Bool) (reportsDirParam : String) (zfail : Option ZipFailure)
    (iterdirExc : String → Option String) :
    Except String (CompilationResult × FS) :=
  if !fs.existsPath jrxmlPath then
    .ok (compile fs jrxmlPath outputPathArg dryRun reportsDirParam zfail)
  else if outputPathArg.isNone && pathName jrxmlPath == "" then
    .error ("ValueError: " ++ jrxmlPath ++ " has an empty name")
  else
    match fs.readExc jrxmlPath with
    | some _ => .ok (compile fs jrxmlPath outputPathArg dryRun reportsDirParam zfail)
    | none =>
      match firstIterdirExc fs iterdirExc (parentDir jrxmlPath)
          (extractAssetReferences (fs.text jrxmlPath) jrxmlPath).assets with
      | some e => .error e
      | none => .ok (compile fs jrxmlPath outputPathArg dryRun reportsDirParam zfail)

/-! ### Concrete fixtures used by counterexamples and witnesses -/

/-- A template with a static reference on line 2 and a dynamic-directory
reference on line 3. -/
def tmplMixed : String :=
  "x\n$P\x7bR\x7d + \"a.png\"\n$P\x7bR\x7d + \"d/\" + $F\x7bx\x7d"

/-- Filesystem for `tmplMixed`: the template, the static asset, and a
directory `d` holding two regular files and one subdirectory. -/
def fsMixed : FS where
  files := ["/tmp/t.jrxml", "/tmp/a.png", "/tmp/d/f1.txt", "/tmp/d/f2.txt"]
  dirs := ["/", "/tmp", "/tmp/d", "/tmp/d/sub"]
  dirEntries := fun p => if p = "/tmp/d" then ["f1.txt", "f2.txt", "sub"] else []
  readExc := fun _ => none
  text := fun p => if p = "/tmp/t.jrxml" then tmplMixed else ""
  bytes := fun p => "bytes:" ++ p
  zipData := fun _ => none

/-- A template whose dynamic-directory reference uses a network-scheme
literal. -/
def tmplUrlDyn : String :=
  "$P\x7bR\x7d + \"http://cdn.example.com/img/\" + $F\x7bf\x7d"

/-- Filesystem for `tmplUrlDyn`: just the template. -/
def fsUrlDyn : FS where
  files := ["/tmp/u.jrxml"]
  dirs := ["/", "/tmp"]
  dirEntries := fun _ => []
  readExc := fun _ => none
  text := fun p => if p = "/tmp/u.jrxml" then tmplUrlDyn else ""
  bytes := fun _ => ""
  zipData := fun _ => none

/-- A template with a static reference whose literal resolves to a
directory. -/
def tmplDirRef : String := "$P\x7bR\x7d + \"sub\""

/-- Filesystem for `tmplDirRef`: the template and a directory (not a file)
at the referenced path. -/
def fsDirRef : FS where
  files := ["/tmp/s.jrxml"]
  dirs := ["/", "/tmp", "/tmp/sub"]
  dirEntries := fun _ => []
  readExc := fun _ => none
  text := fun p => if p = "/tmp/s.jrxml" then tmplDirRef else ""
  bytes := fun _ => ""
  zipData := fun _ => none

/-- A template whose only reference uses a parameter name different from the
conventional `REPORTS_DIR`. -/
def tmplOtherParam : String := "$P\x7bOTHER\x7d + \"logo.png\""

/-- Filesystem for `tmplOtherParam`. -/
def fsOtherParam : FS where
  files := ["/tmp/o.jrxml"]
  dirs := ["/", "/tmp"]
  dirEntries := fun _ => []
  readExc := fun _ => none
  text := fun p => if p = "/tmp/o.jrxml" then tmplOtherParam else ""
  bytes := fun _ => ""
  zipData := fun _ => none

/-- Sort key used to state discovery-order properties: the recorded line
number. -/
def lineKey (a : AssetReference) : Nat := a.line_number.getD 0

/-! ### Shared lemmas -/

/-- Matches reported by `finditerAux` start at or after the running offset. -/
theorem finditerAux_pos_le {α : Type} (m : List Char → Option (α × List Char)) :
    ∀ fuel cs pos, ∀ x ∈ finditerAux m fuel cs pos, pos ≤ x.1 := by
  intro fuel
  induction fuel with
  | zero => intro cs pos x hx; simp [finditerAux] at hx
  | succ fuel ih =>
    intro cs pos x hx
    cases cs with
    | nil => simp [finditerAux] at hx
    | cons c cs =>
      rw [finditerAux] at hx
      cases hm : m (c :: cs) with
      | none =>
        rw [hm] at hx
        exact Nat.le_of_succ_le (ih cs (pos + 1) x hx)
      | some r =>
        rw [hm] at hx
        rcases List.mem_cons.mp hx with h | h
        · rw [h]
        · exact Nat.le_trans (Nat.le_add_right _ _) (ih r.2 _ x h)

/-- `finditer` reports matches in nondecreasing order of start offset. -/
theorem finditerAux_pairwise {α : Type} (m : List Char → Option (α × List Char)) :
    ∀ fuel cs pos,
      List.Pairwise (fun x y : Nat × α => x.1 ≤ y.1) (finditerAux m fuel cs pos) := by
  intro fuel
  induction fuel with
  | zero => intro cs pos; simp [finditerAux]
  | succ fuel ih =>
    intro cs pos
    cases cs with
    | nil => simp [finditerAux]
    | cons c cs =>
      rw [finditerAux]
      cases hm : m (c :: cs) with
      | none => exact ih cs (pos + 1)
      | some r =>
        refine List.Pairwise.cons ?_ (ih r.2 _)
        intro y hy
        exact Nat.le_trans (Nat.le_add_right _ _) (finditerAux_pos_le m fuel r.2 _ y hy)

/-- Line numbers are monotone in the text offset. -/
theorem lineNumberAt_mono (cs : List Char) {p q : Nat} (h : p ≤ q) :
    lineNumberAt cs p ≤ lineNumberAt cs q := by
  unfold lineNumberAt
  have hpq : cs.take p = (cs.take q).take p := by
    rw [List.take_take, Nat.min_eq_left h]
  have hsub : List.Sublist ((cs.take p).filter (fun c => c == '\n'))
      ((cs.take q).filter (fun c => c == '\n')) := by
    rw [hpq]
    exact List.Sublist.filter _ (List.take_sublist _ _)
  exact Nat.succ_le_succ hsub.length_le

/-- Shape of the dynamic-directory fold: it only ever appends references, all
of them dynamic-directory references, and their line numbers follow the
match order (a sublist of the matches' line numbers). -/
theorem dynDirPass_shape (cs : List Char) (src : String) :
    ∀ (ms : List (Nat × String × String × Char × String)) (acc : DynPassOut),
      ∃ δ : List AssetReference,
        (ms.foldl (dynDirStep cs src) acc).assets = acc.assets ++ δ ∧
        (∀ a ∈ δ, a.is_dynamic_dir = true) ∧
        List.Sublist (δ.map lineKey) (ms.map (fun m => lineNumberAt cs m.1)) := by
  intro ms
  induction ms with
  | nil => intro acc; exact ⟨[], by simp, by simp, by simp⟩
  | cons m ms ih =>
    intro acc
    rw [List.foldl_cons]
    obtain ⟨δ, hδ, hall, hsub⟩ := ih (dynDirStep cs src acc m)
    by_cases hs : acc.seen.contains m.2.2.1 = true
    · have hst : (dynDirStep cs src acc m).assets = acc.assets := by
        unfold dynDirStep; rw [if_pos hs]
      refine ⟨δ, by rw [hδ, hst], hall, ?_⟩
      rw [List.map_cons]
      exact hsub.cons _
    · have hst : (dynDirStep cs src acc m).assets =
          acc.assets ++ [dynRefOf cs src m] := by
        unfold dynDirStep; rw [if_neg hs]
      refine ⟨dynRefOf cs src m :: δ, ?_, ?_, ?_⟩
      · rw [hδ, hst, List.append_assoc]; rfl
      · intro a ha
        rcases List.mem_cons.mp ha with h | h
        · rw [h]; rfl
        · exact hall a h
      · rw [List.map_cons, List.map_cons]
        exact List.Sublist.cons₂ _ hsub

/-- Shape of the static-asset fold: it only ever appends references, none of
them dynamic and none with a network-scheme path, and their line numbers
follow the match order. -/
theorem statPass_shape (cs : List Char) (src : String) (dd : List String) :
    ∀ (ms : List (Nat × String × String)) (acc : StatPassOut),
      ∃ δ : List AssetReference,
        (ms.foldl (statStep cs src dd) acc).assets = acc.assets ++ δ ∧
        (∀ a ∈ δ, a.is_dynamic_dir = false ∧ isRemoteUrl a.path = false) ∧
        List.Sublist (δ.map lineKey) (ms.map (fun m => lineNumberAt cs m.1)) := by
  intro ms
  induction ms with
  | nil => intro acc; exact ⟨[], by simp, by simp, by simp⟩
  | cons m ms ih =>
    intro acc
    rw [List.foldl_cons]
    obtain ⟨δ, hδ, hall, hsub⟩ := ih (statStep cs src dd acc m)
    by_cases h1 : isRemoteUrl m.2.2 = true
    · have hst : (statStep cs src dd acc m).assets = acc.assets := by
        unfold statStep; rw [if_pos h1]; split <;> rfl
      exact ⟨δ, by rw [hδ, hst], hall, by rw [List.map_cons]; exact hsub.cons _⟩
    · by_cases h2 : (strEndsWith m.2.2 "/" && dd.contains m.2.2) = true
      · have hst : (statStep cs src dd acc m).assets = acc.assets := by
          unfold statStep; rw [if_neg h1, if_pos h2]
        exact ⟨δ, by rw [hδ, hst], hall, by rw [List.map_cons]; exact hsub.cons _⟩
      · by_cases h3 : acc.seen.contains m.2.2 = true
        · have hst : (statStep cs src dd acc m).assets = acc.assets := by
            unfold statStep; rw [if_neg h1, if_neg h2, if_pos h3]
          exact ⟨δ, by rw [hδ, hst], hall, by rw [List.map_cons]; exact hsub.cons _⟩
        · have hst : (statStep cs src dd acc m).assets =
              acc.assets ++ [statRefOf cs src m] := by
            unfold statStep; rw [if_neg h1, if_neg h2, if_neg h3]
          refine ⟨statRefOf cs src m :: δ, ?_, ?_, ?_⟩
          · rw [hδ, hst, List.append_assoc]; rfl
          · intro a ha
            rcases List.mem_cons.mp ha with h | h
            · rw [h]
              exact ⟨rfl, Bool.eq_false_iff.mpr h1⟩
            · exact hall a h
          · rw [List.map_cons, List.map_cons]
            exact List.Sublist.cons₂ _ hsub

/-- The static fold records only network-scheme literals in `skipped_urls`. -/
theorem statPass_skipped_urls (cs : List Char) (src : String) (dd : List String) :
    ∀ (ms : List (Nat × String × String)) (acc : StatPassOut),
      ∀ u ∈ (ms.foldl (statStep cs src dd) acc).skippedUrls,
        u ∈ acc.skippedUrls ∨ isRemoteUrl u = true := by
  intro ms
  induction ms with
  | nil => intro acc u hu; exact Or.inl hu
  | cons m ms ih =>
    intro acc u hu
    rw [List.foldl_cons] at hu
    rcases ih (statStep cs src dd acc m) u hu with h | h
    · by_cases h1 : isRemoteUrl m.2.2 = true
      · by_cases hc : acc.skippedUrls.contains m.2.2 = true
        · have : (statStep cs src dd acc m).skippedUrls = acc.skippedUrls := by
            unfold statStep; rw [if_pos h1, if_pos hc]
          rw [this] at h; exact Or.inl h
        · have : (statStep cs src dd acc m).skippedUrls =
              acc.skippedUrls ++ [m.2.2] := by
            unfold statStep; rw [if_pos h1, if_neg hc]
          rw [this] at h
          rcases List.mem_append.mp h with h' | h'
          · exact Or.inl h'
          · right
            rw [List.mem_singleton.mp h']
            exact h1
      · have : (statStep cs src dd acc m).skippedUrls = acc.skippedUrls := by
          unfold statStep; rw [if_neg h1]
          split
          · rfl
          · split <;> rfl
        rw [this] at h; exact Or.inl h
    · exact Or.inr h

/-- A dry run leaves the filesystem untouched. -/
theorem compile_dry_run_fs (fs : FS) (p : String) (o : Option String)
    (rdp : String) (zf : Option ZipFailure) :
    (compile fs p o true rdp zf).2 = fs := by
  unfold compile
  repeat' split
  all_goals first
    | rfl
    | exact absurd rfl ‹¬true = true›

/-- A dry run returns the same `CompilationResult` as a full run in which the
archive step raises no exception. -/
theorem compile_dry_run_result (fs : FS) (p : String) (o : Option String)
    (rdp : String) (zf : Option ZipFailure) :
    (compile fs p o true rdp zf).1 = (compile fs p o false rdp none).1 := by
  unfold compile
  repeat' split
  all_goals first
    | rfl
    | exact absurd rfl ‹¬true = true›
    | exact (Bool.false_ne_true ‹false = true›).elim

/-- After `updateZip` the archive file exists at the output path. -/
theorem updateZip_existsPath (fs : FS) (out : String) (es : List (String × String)) :
    (updateZip fs out es).existsPath out = true := by
  unfold updateZip FS.existsPath
  by_cases h : out ∈ fs.files <;> simp [h]

/-- When no directory listing raises, the resolution loop hits no `iterdir()`
exception. -/
theorem firstIterdirExc_none (fs : FS) (baseDir : String) :
    ∀ l : List AssetReference,
      firstIterdirExc fs (fun _ => none) baseDir l = none := by
  intro l
  induction l with
  | nil => rfl
  | cons a rest ih =>
    unfold firstIterdirExc
    split
    · split
      · exact ih
      · exact ih
    · exact ih

/-! ### Claim theorems -/

/-- Claim C10 (confirmed): `analyze` returns exactly what `compile` returns
with the default output path and `dryRun = true`.  A dry run never reaches the
archive step, so the equivalence holds whatever the archive I/O environment of
the `compile` run is. -/
theorem c10_analyze_equiv_compile (fs : FS) (p rdp : String)
    (zf : Option ZipFailure) :
    analyze fs p rdp = compile fs p none true rdp zf := rfl

/-- Claim C1 (counterexample): with the scanner configured for the parameter
name `REPORTS_DIR`, a template whose only expression concatenates the
*different* parameter name `OTHER` with a literal still yields an
`AssetReference` — contradicting the claim that expressions using a different
parameter name are not recovered. -/
theorem c1_counterexample :
    "OTHER" ≠ "REPORTS_DIR" ∧
    ((compile fsOtherParam "/tmp/o.jrxml" none true "REPORTS_DIR" none).1.assets_found.map
      (fun a => a.path)) = ["logo.png"] :=
  ⟨by decide, rfl⟩

/-- Claim C1 (amended): the scanner's patterns match *any* parameter name
(`\w+`); the configured `reports_dir_param` is never used to filter matches,
so the entire compilation result is independent of it. -/
theorem c1_param_independent (fs : FS) (p : String) (o : Option String)
    (dry : Bool) (rdp1 rdp2 : String) (zf : Option ZipFailure) :
    compile fs p o dry rdp1 zf = compile fs p o dry rdp2 zf := rfl

/-- Claim C2 (counterexample): the template
`$P{R} + "http://cdn.example.com/img/" + $F{f}` produces a network-scheme
literal that IS recorded in `skipped_urls` (by the static pattern) yet ALSO
appears in `assets_missing`, because the dynamic-directory loop performs no
URL check — contradicting the claim that every such literal found by either
pattern is only recorded in `skippedRemoteUrls`. -/
theorem c2_counterexample :
    isRemoteUrl "http://cdn.example.com/img/" = true ∧
    ((compile fsUrlDyn "/tmp/u.jrxml" none true "REPORTS_DIR" none).1.assets_missing.map
      (fun a => a.path)) = ["http://cdn.example.com/img/"] ∧
    (compile fsUrlDyn "/tmp/u.jrxml" none true "REPORTS_DIR" none).1.skipped_urls =
      ["http://cdn.example.com/img/"] :=
  ⟨by decide, by decide, by decide⟩

/-- Claim C2 (amended): the remote-URL filter applies to the static-asset
pattern only — no non-dynamic `AssetReference` ever carries a network-scheme
path, and everything recorded in `skipped_urls` is a network-scheme literal;
a network-scheme literal matched by the dynamic-directory pattern is still
recovered as a dynamic-directory reference and can reach `assetsMissing`. -/
theorem c2_amended_url_filter (content src : String) :
    (∀ a ∈ (extractAssetReferences content src).assets,
      a.is_dynamic_dir = false → isRemoteUrl a.path = false) ∧
    (∀ u ∈ (extractAssetReferences content src).skippedUrls,
      isRemoteUrl u = true) := by
  constructor
  · intro a ha hstat
    have hsplit : (extractAssetReferences content src).assets =
        (dynDirPass content.toList src).assets ++
        (statPass content.toList src (dynDirPass content.toList src)).assets := rfl
    rw [hsplit] at ha
    rcases List.mem_append.mp ha with h | h
    · obtain ⟨δ, hδ, hall, -⟩ := dynDirPass_shape content.toList src
        (finditer matchDynDirAt content.toList) ⟨[], [], []⟩
      have hda : (dynDirPass content.toList src).assets = δ := by simpa using hδ
      rw [hda] at h
      rw [hall a h] at hstat
      exact absurd hstat (by simp)
    · obtain ⟨δ, hδ, hall, -⟩ := statPass_shape content.toList src
        (dynDirPass content.toList src).dynDirs
        (finditer matchAssetAt content.toList)
        ⟨[], (dynDirPass content.toList src).seen, []⟩
      have hsa : (statPass content.toList src (dynDirPass content.toList src)).assets
          = δ := by simpa using hδ
      rw [hsa] at h
      exact (hall a h).2
  · intro u hu
    have hsplit : (extractAssetReferences content src).skippedUrls =
        (statPass content.toList src (dynDirPass content.toList src)).skippedUrls := rfl
    rw [hsplit] at hu
    rcases statPass_skipped_urls content.toList src
        (dynDirPass content.toList src).dynDirs
        (finditer matchAssetAt content.toList)
        ⟨[], (dynDirPass content.toList src).seen, []⟩ u hu with h | h
    · simp at h
    · exact h

/-- Witness for `c2_amended_url_filter` at concrete inputs. -/
theorem c2_amended_url_filter_witness :
    isRemoteUrl (AssetReference.path
      { path := "logo.png", source_file := "/tmp/o.jrxml",
        line_number := some 1, asset_type := "image" }) = false ∧
    isRemoteUrl "http://cdn.example.com/img/" = true :=
  ⟨(c2_amended_url_filter tmplOtherParam "/tmp/o.jrxml").1 _ (by decide) (by decide),
   (c2_amended_url_filter tmplUrlDyn "/tmp/u.jrxml").2
     "http://cdn.example.com/img/" (by decide)⟩

/-- Claim C3 (counterexample): in `tmplMixed` the static reference `a.png`
first matches at offset 2 (line 2), the dynamic-directory reference `d/`
first matches at offset 18 (line 3), yet `assets_found` lists `d/` before
`a.png` — the dynamic-directory pass always runs first, contradicting global
first-match ordering. -/
theorem c3_counterexample :
    ((compile fsMixed "/tmp/t.jrxml" none true "REPORTS_DIR" none).1.assets_found.map
      (fun a => (a.path, a.line_number))) = [("d/", some 3), ("a.png", some 2)] ∧
    (finditer matchAssetAt tmplMixed.toList).map (fun m => (m.1, m.2.2)) =
      [(2, "a.png"), (18, "d/")] ∧
    (finditer matchDynDirAt tmplMixed.toList).map (fun m => m.1) = [18] :=
  ⟨by decide, by decide, by decide⟩

/-- Claim C3 (amended): `assetsFound` is the dynamic-directory references
followed by the static references; within each of the two passes the
references appear in first-match order (nondecreasing recorded line
numbers). -/
theorem c3_order (content src : String) :
    (extractAssetReferences content src).assets =
      (dynDirPass content.toList src).assets ++
      (statPass content.toList src (dynDirPass content.toList src)).assets ∧
    (∀ a ∈ (dynDirPass content.toList src).assets, a.is_dynamic_dir = true) ∧
    (∀ a ∈ (statPass content.toList src (dynDirPass content.toList src)).assets,
      a.is_dynamic_dir = false) ∧
    List.Pairwise (fun x y => lineKey x ≤ lineKey y)
      (dynDirPass content.toList src).assets ∧
    List.Pairwise (fun x y => lineKey x ≤ lineKey y)
      (statPass content.toList src (dynDirPass content.toList src)).assets := by
  obtain ⟨δd, hδd, halld, hsubd⟩ := dynDirPass_shape content.toList src
      (finditer matchDynDirAt content.toList) ⟨[], [], []⟩
  obtain ⟨δs, hδs, halls, hsubs⟩ := statPass_shape content.toList src
      (dynDirPass content.toList src).dynDirs
      (finditer matchAssetAt content.toList)
      ⟨[], (dynDirPass content.toList src).seen, []⟩
  have hd : (dynDirPass content.toList src).assets = δd := by simpa using hδd
  have hs : (statPass content.toList src (dynDirPass content.toList src)).assets
      = δs := by simpa using hδs
  have hmatchd : List.Pairwise (fun x y => x ≤ y)
      ((finditer matchDynDirAt content.toList).map
        (fun m => lineNumberAt content.toList m.1)) :=
    List.Pairwise.map _ (fun a b hab => lineNumberAt_mono content.toList hab)
      (finditerAux_pairwise matchDynDirAt content.toList.length content.toList 0)
  have hmatchs : List.Pairwise (fun x y => x ≤ y)
      ((finditer matchAssetAt content.toList).map
        (fun m => lineNumberAt content.toList m.1)) :=
    List.Pairwise.map _ (fun a b hab => lineNumberAt_mono content.toList hab)
      (finditerAux_pairwise matchAssetAt content.toList.length content.toList 0)
  refine ⟨rfl, ?_, ?_, ?_, ?_⟩
  · rw [hd]; exact halld
  · rw [hs]; intro a ha; exact (halls a ha).1
  · rw [hd]
    exact List.pairwise_map.mp (List.Pairwise.sublist hsubd hmatchd)
  · rw [hs]
    exact List.pairwise_map.mp (List.Pairwise.sublist hsubs hmatchs)

/-- Claim C4 (counterexample): an I/O failure while writing archive entries
(after the archive file was created, before the writer was finalised) aborts
the run with `success = false` and the error recorded, BUT a partially
written output file IS left at the output path: the archive holds only the
main template entry, and nothing removes it — contradicting the claim that no
partially written output file remains. -/
theorem c4_counterexample :
    ((compile fsDirRef "/tmp/s.jrxml" (some "/out/o.zip") false "REPORTS_DIR"
        (some (.writeFail 1 "disk full"))).1.success = false) ∧
    ((compile fsDirRef "/tmp/s.jrxml" (some "/out/o.zip") false "REPORTS_DIR"
        (some (.writeFail 1 "disk full"))).1.errors =
      ["Failed to create ZIP: disk full"]) ∧
    ((compile fsDirRef "/tmp/s.jrxml" (some "/out/o.zip") false "REPORTS_DIR"
        (some (.writeFail 1 "disk full"))).2.existsPath "/out/o.zip" = true) ∧
    ((compile fsDirRef "/tmp/s.jrxml" (some "/out/o.zip") false "REPORTS_DIR"
        (some (.writeFail 1 "disk full"))).2.zipData "/out/o.zip" =
      some [("s.jrxml", "")]) :=
  ⟨by decide, by decide, by decide, by decide⟩

/-- Claim C4 (amended): any I/O failure during the archive step aborts the
run, appends an error and returns `success = false`; but only a failure that
precedes creation of the archive file leaves nothing behind — on a failure
while writing entries, the partially written output file remains at the
output path. -/
theorem c4_zip_failure_aborts (fs : FS) (p out rdp : String)
    (i : Nat) (msg : String)
    (hex : fs.existsPath p = true) (hrd : fs.readExc p = none) :
    ((compile fs p (some out) false rdp (some (.writeFail i msg))).1.success
      = false) ∧
    ((compile fs p (some out) false rdp (some (.writeFail i msg))).1.errors =
      ["Failed to create ZIP: " ++ msg]) ∧
    ((compile fs p (some out) false rdp (some (.writeFail i msg))).2.existsPath out
      = true) ∧
    ((compile fs p (some out) false rdp (some (.openFail msg))).2 = fs) := by
  unfold compile
  rw [hex, hrd]
  simp [createZip, updateZip_existsPath]

/-- Witness for `c4_zip_failure_aborts` at concrete inputs. -/
theorem c4_zip_failure_aborts_witness :
    ((compile fsDirRef "/tmp/s.jrxml" (some "/out/o.zip") false "REPORTS_DIR"
        (some (.writeFail 0 "disk full"))).1.success = false) ∧
    ((compile fsDirRef "/tmp/s.jrxml" (some "/out/o.zip") false "REPORTS_DIR"
        (some (.writeFail 0 "disk full"))).1.errors =
      ["Failed to create ZIP: " ++ "disk full"]) ∧
    ((compile fsDirRef "/tmp/s.jrxml" (some "/out/o.zip") false "REPORTS_DIR"
        (some (.writeFail 0 "disk full"))).2.existsPath "/out/o.zip" = true) ∧
    ((compile fsDirRef "/tmp/s.jrxml" (some "/out/o.zip") false "REPORTS_DIR"
        (some (.openFail "disk full"))).2 = fsDirRef) :=
  c4_zip_failure_aborts fsDirRef "/tmp/s.jrxml" "/out/o.zip" "REPORTS_DIR" 0
    "disk full" (by decide) rfl

/-- Claim C6 (confirmed): a dynamic-directory reference whose literal prefix
resolves to an existing directory contributes exactly one `(absolute path,
archive path)` pair per immediate regular file of that directory (entries
that are not regular files — e.g. subdirectories — are filtered out, so
expansion is non-recursive), each archive path being the literal prefix
concatenated with the file's own name, and exactly one warning naming the
directory and the file count; the archive then receives exactly one entry
per collected pair, at its archive path. -/
theorem c6_dynamic_dir_expansion (fs : FS) (baseDir : String) (a : AssetReference)
    (hdyn : a.is_dynamic_dir = true)
    (hdir : fs.isDir (joinPath baseDir a.path) = true) :
    resolveAsset fs baseDir a =
      { toInclude := ((fs.dirEntries (joinPath baseDir a.path)).filter
            (fun n => fs.isFile (joinPath baseDir a.path ++ "/" ++ n))).map
          (fun n => (joinPath baseDir a.path ++ "/" ++ n, a.path ++ n))
        included := ((fs.dirEntries (joinPath baseDir a.path)).filter
            (fun n => fs.isFile (joinPath baseDir a.path ++ "/" ++ n))).map
          (fun n => joinPath baseDir a.path ++ "/" ++ n)
        missing := []
        warnings := ["Dynamic asset: " ++ a.path ++ "* (filename from " ++
          dynParamText a.dynamic_param ++ ") - included all " ++
          toString ((fs.dirEntries (joinPath baseDir a.path)).filter
            (fun n => fs.isFile (joinPath baseDir a.path ++ "/" ++ n))).length ++
          " files from directory"] } ∧
    (resolveAsset fs baseDir a).toInclude.length =
      ((fs.dirEntries (joinPath baseDir a.path)).filter
        (fun n => fs.isFile (joinPath baseDir a.path ++ "/" ++ n))).length ∧
    (∀ (jp outPath : String) (incl : List (String × String)),
      ((createZip fs jp incl outPath none).2).zipData outPath =
        some ((pathName jp, fs.bytes jp) ::
          incl.map (fun e => (e.2, fs.bytes e.1)))) := by
  have hex : fs.existsPath (joinPath baseDir a.path) = true := by
    unfold FS.existsPath
    unfold FS.isDir at hdir
    rw [hdir]
    simp
  refine ⟨?_, ?_, ?_⟩
  · simp [resolveAsset, hdyn, hex, hdir]
  · simp [resolveAsset, hdyn, hex, hdir]
  · intro jp outPath incl
    simp [createZip, updateZip]

/-- Witness for `c6_dynamic_dir_expansion`: the directory `d` of `fsMixed`
holds two regular files (and one subdirectory, not counted). -/
theorem c6_dynamic_dir_expansion_witness :
    (resolveAsset fsMixed "/tmp"
      { path := "d/", source_file := "/tmp/t.jrxml", line_number := some 3,
        asset_type := "directory", is_dynamic_dir := true,
        dynamic_param := some "$F\x7bx\x7d" }).toInclude.length =
      ((fsMixed.dirEntries (joinPath "/tmp" "d/")).filter
        (fun n => fsMixed.isFile (joinPath "/tmp" "d/" ++ "/" ++ n))).length ∧
    ((fsMixed.dirEntries (joinPath "/tmp" "d/")).filter
      (fun n => fsMixed.isFile (joinPath "/tmp" "d/" ++ "/" ++ n))).length = 2 :=
  ⟨(c6_dynamic_dir_expansion fsMixed "/tmp" _ rfl (by decide)).2.1, by decide⟩

/-- Claim C7 (counterexample): a static reference whose literal resolves to an
existing DIRECTORY — hence not to an existing file — is nevertheless included
(`Path.exists()` is true for directories), with no missing entry and no
warning, contradicting the claim that every non-directory reference not
resolving to an existing file is reported missing with a warning. -/
theorem c7_counterexample :
    fsDirRef.isFile "/tmp/sub" = false ∧
    ((compile fsDirRef "/tmp/s.jrxml" none true "REPORTS_DIR" none).1.assets_found.map
      (fun a => (a.path, a.is_dynamic_dir))) = [("sub", false)] ∧
    (compile fsDirRef "/tmp/s.jrxml" none true "REPORTS_DIR" none).1.assets_missing
      = [] ∧
    (compile fsDirRef "/tmp/s.jrxml" none true "REPORTS_DIR" none).1.assets_included
      = ["/tmp/sub"] ∧
    (compile fsDirRef "/tmp/s.jrxml" none true "REPORTS_DIR" none).1.warnings = [] :=
  ⟨by decide, by decide, by decide, by decide, by decide⟩

/-- Claim C7 (amended): a non-directory reference whose literal path resolves
to nothing at all (no file AND no directory) is appended to `assets_missing`
with exactly one warning containing the literal path and the template file
name; such misses never make the run fail — a run with readable source and
working archive I/O returns `success = true`. -/
theorem c7_missing_asset_reported (fs : FS) (baseDir : String) (a : AssetReference)
    (hstat : a.is_dynamic_dir = false)
    (hmiss : fs.existsPath (joinPath baseDir a.path) = false) :
    resolveAsset fs baseDir a =
      { toInclude := [], included := [], missing := [a]
        warnings := ["Asset not found: " ++ a.path ++ " (referenced in " ++
          pathName a.source_file ++ ")"] } ∧
    (∀ (fs' : FS) (p : String) (o : Option String) (rdp : String),
      fs'.existsPath p = true → fs'.readExc p = none →
      (compile fs' p o false rdp none).1.success = true) := by
  constructor
  · simp [resolveAsset, hstat, hmiss]
  · intro fs' p o rdp h1 h2
    unfold compile
    rw [h1, h2]
    simp [createZip]

/-- Witness for `c7_missing_asset_reported` at concrete inputs. -/
theorem c7_missing_asset_reported_witness :
    (resolveAsset fsOtherParam "/tmp"
      { path := "logo.png", source_file := "/tmp/o.jrxml",
        line_number := some 1, asset_type := "image" } =
      { toInclude := [], included := [],
        missing := [{ path := "logo.png", source_file := "/tmp/o.jrxml",
                      line_number := some 1, asset_type := "image" }],
        warnings := ["Asset not found: " ++ "logo.png" ++ " (referenced in " ++
          pathName "/tmp/o.jrxml" ++ ")"] }) ∧
    (∀ (fs' : FS) (p : String) (o : Option String) (rdp : String),
      fs'.existsPath p = true → fs'.readExc p = none →
      (compile fs' p o false rdp none).1.success = true) :=
  c7_missing_asset_reported fsOtherParam "/tmp"
    { path := "logo.png", source_file := "/tmp/o.jrxml",
      line_number := some 1, asset_type := "image" } rfl (by decide)

/-- Success/error characterisation of `compile` along its non-raising paths:
`success = false` exactly when the source is missing, the source is
unreadable, or (in a non-dry run) the archive step raises inside its `try`;
`errors` is nonempty exactly in those cases.  (The uncaught exception paths
of the program are not reached here; see `compileExc` and
`c8_uncaught_raise_paths`.) -/
theorem compile_success_iff (fs : FS) (p : String) (o : Option String)
    (dry : Bool) (rdp : String) (zf : Option ZipFailure) :
    ((compile fs p o dry rdp zf).1.success = false ↔
      (fs.existsPath p = false ∨
       (fs.existsPath p = true ∧ fs.readExc p ≠ none) ∨
       (fs.existsPath p = true ∧ fs.readExc p = none ∧ dry = false ∧
        zf ≠ none))) ∧
    ((compile fs p o dry rdp zf).1.errors ≠ [] ↔
      (compile fs p o dry rdp zf).1.success = false) := by
  cases hex : fs.existsPath p with
  | false => simp [compile, hex]
  | true =>
    cases hrd : fs.readExc p with
    | some e => simp [compile, hex, hrd]
    | none =>
      cases dry with
      | true => simp [compile, hex, hrd]
      | false =>
        rcases zf with - | f
        · simp [compile, hex, hrd, createZip]
        · rcases f with msg | ⟨i, msg⟩ <;> simp [compile, hex, hrd, createZip]

/-- Claim C8 (code_bug): the program can raise past `compile`'s boundary,
against the claim's (and §7's) result-object reporting policy.  At the
failing input — source path `/`, which exists and has an empty final name,
with the default output path — `jrxml_path.with_suffix('.zip')` raises
`ValueError` before any guarded step; and a dynamic-directory listing that
raises (e.g. `PermissionError`) escapes the resolution loop, shown here on
`fsMixed` with the listing of `/tmp/d` failing.  When neither uncaught path
is hit, the raise-aware model refines to `compile`'s result, whose
success/error characterisation `compile_success_iff` states. -/
theorem c8_uncaught_raise_paths :
    (fsMixed.existsPath "/" = true ∧ pathName "/" = "" ∧
      compileExc fsMixed "/" none true "REPORTS_DIR" none (fun _ => none) =
        .error ("ValueError: " ++ "/" ++ " has an empty name")) ∧
    (compileExc fsMixed "/tmp/t.jrxml" none false "REPORTS_DIR" none
        (fun q => if q = "/tmp/d" then some "PermissionError: Permission denied"
          else none) =
      .error "PermissionError: Permission denied") ∧
    (∀ (fs : FS) (p : String) (o : Option String) (dry : Bool) (rdp : String)
        (zf : Option ZipFailure),
      pathName p ≠ "" →
      compileExc fs p o dry rdp zf (fun _ => none) =
        .ok (compile fs p o dry rdp zf)) := by
  refine ⟨⟨by decide, by decide, rfl⟩, rfl, ?_⟩
  intro fs p o dry rdp zf hname
  have hbeq : (pathName p == "") = false := beq_eq_false_iff_ne.mpr hname
  unfold compileExc
  cases hex : fs.existsPath p with
  | false => simp [hex]
  | true =>
    cases hrd : fs.readExc p with
    | some e => simp [hex, hbeq, hrd]
    | none => simp [hex, hbeq, hrd, firstIterdirExc_none]

/-- Claim C9 (confirmed): the compilation is deterministic — the result,
including the ordered asset lists, the diagnostics and the archive entries,
is a function of the filesystem snapshot and the arguments alone; two runs
over filesystems agreeing observation-for-observation produce equal results
and equal archives. -/
theorem c9_deterministic (fs1 fs2 : FS) (p : String) (o : Option String)
    (dry : Bool) (rdp : String) (zf : Option ZipFailure)
    (hfl : fs1.files = fs2.files) (hdr : fs1.dirs = fs2.dirs)
    (hde : ∀ q, fs1.dirEntries q = fs2.dirEntries q)
    (hre : ∀ q, fs1.readExc q = fs2.readExc q)
    (htx : ∀ q, fs1.text q = fs2.text q)
    (hby : ∀ q, fs1.bytes q = fs2.bytes q)
    (hzd : ∀ q, fs1.zipData q = fs2.zipData q) :
    compile fs1 p o dry rdp zf = compile fs2 p o dry rdp zf := by
  have heq : fs1 = fs2 := by
    cases fs1
    cases fs2
    simp only [FS.mk.injEq]
    exact ⟨hfl, hdr, funext hde, funext hre, funext htx, funext hby, funext hzd⟩
  rw [heq]

/-- Witness for `c9_deterministic` at concrete inputs. -/
theorem c9_deterministic_witness :
    compile fsMixed "/tmp/t.jrxml" none false "REPORTS_DIR" none =
      compile fsMixed "/tmp/t.jrxml" none false "REPORTS_DIR" none :=
  c9_deterministic fsMixed fsMixed "/tmp/t.jrxml" none false "REPORTS_DIR" none
    rfl rfl (fun _ => rfl) (fun _ => rfl) (fun _ => rfl) (fun _ => rfl)
    (fun _ => rfl)

/-- Claim C5 (confirmed): a dry run never creates or modifies anything (the
filesystem is returned unchanged, in particular nothing at the output path),
and all diagnostic fields equal those of a full run on the same inputs and
filesystem state (archive I/O succeeding). -/
theorem c5_dry_run_non_mutation (fs : FS) (p : String) (o : Option String)
    (rdp : String) (zf : Option ZipFailure) :
    (compile fs p o true rdp zf).2 = fs ∧
    (compile fs p o true rdp zf).1.assets_found =
      (compile fs p o false rdp none).1.assets_found ∧
    (compile fs p o true rdp zf).1.assets_included =
      (compile fs p o false rdp none).1.assets_included ∧
    (compile fs p o true rdp zf).1.assets_missing =
      (compile fs p o false rdp none).1.assets_missing ∧
    (compile fs p o true rdp zf).1.skipped_urls =
      (compile fs p o false rdp none).1.skipped_urls ∧
    (compile fs p o true rdp zf).1.skipped_dynamic =
      (compile fs p o false rdp none).1.skipped_dynamic ∧
    (compile fs p o true rdp zf).1.errors =
      (compile fs p o false rdp none).1.errors ∧
    (compile fs p o true rdp zf).1.warnings =
      (compile fs p o false rdp none).1.warnings :=
  ⟨compile_dry_run_fs fs p o rdp zf,
   congrArg CompilationResult.assets_found (compile_dry_run_result fs p o rdp zf),
   congrArg CompilationResult.assets_included (compile_dry_run_result fs p o rdp zf),
   congrArg CompilationResult.assets_missing (compile_dry_run_result fs p o rdp zf),
   congrArg CompilationResult.skipped_urls (compile_dry_run_result fs p o rdp zf),
   congrArg CompilationResult.skipped_dynamic (compile_dry_run_result fs p o rdp zf),
   congrArg CompilationResult.errors (compile_dry_run_result fs p o rdp zf),
   congrArg CompilationResult.warnings (compile_dry_run_result fs p o rdp zf)⟩

end Muban
